import Mathlib

/-!
Shallow embedding of `src/main.rs` of the config-driven-egui repository: a
small interpreter that renders a UI from a declarative configuration and
routes interaction back into a mutable application state through named,
serializable commands.

Modelling conventions:
- Rust `u32` values are modelled as `Nat`; where the source performs
  arithmetic that can overflow (`context.age += 1`), the overflow is made
  explicit (an `Option` result: `none` models the arithmetic-overflow panic
  of a checked `u32` addition).
- The egui surface is an external collaborator.  It is modelled as a
  function from the index of the `ui.add` call within the frame to the
  `Response` the toolkit reports for that widget (`changed`, `clicked`, and
  the value the toolkit wrote into the `&mut` local passed to it).
- Rendering is modelled as a trace of events: the render requests issued to
  the surface, interleaved with the command dispatches the interpreter runs.
- `serde` (de)serialization of the configuration types, as derived from the
  source's attributes (`tag = "type"`, `rename_all = "snake_case"`,
  `#[serde(untagged)]` fallback variants), is modelled over a YAML-like
  `Value` type.
-/

/-! ## Application state (`HandlerContext`) and demo handlers -/

/-- `u32::MAX`. -/
def u32MAX : Nat := 2 ^ 32 - 1

/-- The demo context: `struct HandlerContext { name: String, age: u32 }`. -/
structure HandlerContext where
  name : String
  age : Nat
deriving Repr, DecidableEq

/-- `impl Default for HandlerContext`: `{ name: "Arthur", age: 42 }`. -/
def HandlerContext.default : HandlerContext :=
  { name := "Arthur", age := 42 }

/-- `enum HandlerU32 { SetAge }` (numeric-argument commands). -/
inductive HandlerU32 where
  | SetAge
deriving Repr, DecidableEq

/-- `HandlerU32::run(&self, value: u32, context: &mut HandlerContext)`. -/
def HandlerU32.run (self : HandlerU32) (value : Nat) (context : HandlerContext) :
    HandlerContext :=
  match self with
  | .SetAge => { context with age := value }

/-- `enum HandlerString { SetName }` (textual-argument commands). -/
inductive HandlerString where
  | SetName
deriving Repr, DecidableEq

/-- `HandlerString::run(&self, value: String, context: &mut HandlerContext)`. -/
def HandlerString.run (self : HandlerString) (value : String)
    (context : HandlerContext) : HandlerContext :=
  match self with
  | .SetName => { context with name := value }

/-- `enum Handler { IncrementAge }` (zero-argument commands). -/
inductive Handler where
  | IncrementAge
deriving Repr, DecidableEq

/-- `Handler::run(&self, context: &mut HandlerContext)`.  The source's body is
`context.age += 1` on a `u32`: when `age = u32::MAX` the addition overflows
(a panic under Rust's overflow checks), modelled as `none`. -/
def Handler.run (self : Handler) (context : HandlerContext) :
    Option HandlerContext :=
  match self with
  | .IncrementAge =>
      if context.age < u32MAX then some { context with age := context.age + 1 }
      else none

/-! ## Demo readers (value expressions) -/

/-- `enum AsU32 { GetAge, #[serde(untagged)] Literal(u32) }`. -/
inductive AsU32 where
  | GetAge
  | Literal (val : Nat)
deriving Repr, DecidableEq

/-- `AsU32::as_u32(&self, context: &HandlerContext) -> u32`. -/
def AsU32.as_u32 (self : AsU32) (context : HandlerContext) : Nat :=
  match self with
  | .GetAge => context.age
  | .Literal val => val

/-- `enum AsString { GetName, Hello, #[serde(untagged)] Literal(String) }`. -/
inductive AsString where
  | GetName
  | Hello
  | Literal (val : String)
deriving Repr, DecidableEq

/-- `AsString::as_string(&self, context: &HandlerContext) -> String`.  The
`Hello` arm is the source's `format!("Hello \x7b\x7d..." )` interpolation of
`context.name` and `context.age`. -/
def AsString.as_string (self : AsString) (context : HandlerContext) : String :=
  match self with
  | .GetName => context.name
  | .Hello => "Hello '" ++ context.name ++ "', age " ++ toString context.age
  | .Literal val => val

/-! ## Widget tree -/

/-- `std::ops::RangeInclusive<u32>` as used by `Slider.range`. -/
structure RangeInclusive where
  start : Nat
  «end» : Nat
deriving Repr, DecidableEq

/-- `struct Label { text: AsString, id: Option<String> }`. -/
structure Label where
  text : AsString
  id : Option String
deriving Repr, DecidableEq

/-- `struct Slider { range, text, value, on_change }`. -/
structure Slider where
  range : RangeInclusive
  text : AsString
  value : AsU32
  on_change : HandlerU32
deriving Repr, DecidableEq

/-- `struct Button { text: AsString, on_click: Handler }`. -/
structure Button where
  text : AsString
  on_click : Handler
deriving Repr, DecidableEq

/-- `struct Image { src: AsString }`. -/
structure Image where
  src : AsString
deriving Repr, DecidableEq

/-- `struct TextEdit { value, on_change, label_id }`. -/
structure TextEdit where
  value : AsString
  on_change : HandlerString
  label_id : Option String
deriving Repr, DecidableEq

/-- `enum Widget` (internally tagged, `tag = "type"`, snake_case variant
names on the wire).  The single field `widgets: Vec<Widget>` of
`struct HorizontalLayout` is inlined into its constructor so that the tree
is one nested inductive. -/
inductive Widget where
  | Label (label : Label)
  | HorizontalLayout (widgets : List Widget)
  | TextEdit (text_edit : TextEdit)
  | Slider (slider : Slider)
  | Button (button : Button)
  | Image (image : Image)

/-- `struct CentralPanel { widgets: Vec<Widget> }`. -/
structure CentralPanel where
  widgets : List Widget

/-- `enum Container { CentralPanel(CentralPanel) }` (internally tagged). -/
inductive Container where
  | CentralPanel (panel : CentralPanel)

/-- `struct Config { name: String, containers: Vec<Container> }`. -/
structure Config where
  name : String
  containers : List Container

/-- `struct Engine { config: Config, context: HandlerContext }`. -/
structure Engine where
  config : Config
  context : HandlerContext

/-! ## The render surface (external collaborator) -/

/-- What the toolkit reports, synchronously, for one `ui.add` call:
whether the widget `changed` / was `clicked` this frame, and the value the
toolkit wrote into the `&mut` local the interpreter passed to it
(`sliderValue` for `Slider::new(&mut value, ..)`, `textValue` for
`TextEdit::singleline(&mut value)`). -/
structure Response where
  changed : Bool
  clicked : Bool
  sliderValue : Nat
  textValue : String
deriving Repr, DecidableEq

/-- The surface for one frame: the `Response` returned by the `n`-th
`ui.add` call of the frame. -/
abbrev Surface := Nat → Response

/-- A render request issued to the surface, carrying exactly the data the
interpreter passes to the toolkit. -/
inductive RenderOp where
  | label (text : String)
  | openHorizontal
  | closeHorizontal
  | slider (lo hi : Nat) (text : String) (value : Nat)
  | button (text : String)
  | image (uri : String)
  | textEdit (value : String)
  | openCentralPanel
  | closeCentralPanel
deriving Repr, DecidableEq

/-- A command dispatch performed by the interpreter. -/
inductive Dispatch where
  | u32 (handler : HandlerU32) (value : Nat)
  | text (handler : HandlerString) (value : String)
  | click (handler : Handler)
deriving Repr, DecidableEq

/-- One step of the per-frame trace: a render request or a dispatch. -/
inductive Event where
  | render (op : RenderOp)
  | dispatch (d : Dispatch)
deriving Repr, DecidableEq

/-- The render requests of a trace, in order. -/
def rendersOf (events : List Event) : List RenderOp :=
  events.filterMap fun e =>
    match e with
    | .render op => some op
    | .dispatch _ => none

/-- How many command dispatches a trace contains. -/
def dispatchCount (events : List Event) : Nat :=
  (events.filter fun e =>
    match e with
    | .dispatch _ => true
    | .render _ => false).length

/-! ## The interpreter: `HandlerContext::update_widget` and the frame driver

Each function returns `none` when a dispatched command panics (age overflow),
and otherwise the mutated context, the trace of events in the order the
source performs them, and the index of the next `ui.add` call. -/

mutual

/-- `HandlerContext::update_widget(&mut self, widget: &Widget, ui: &mut Ui)`.
For each arm: the expressions are evaluated against the current state and
the render request is issued first; the response for that `ui.add` call is
then inspected, and the widget's command runs afterwards (at most once). -/
def HandlerContext.update_widget (c : HandlerContext) (widget : Widget)
    (surface : Surface) (k : Nat) :
    Option (HandlerContext × List Event × Nat) :=
  match widget with
  | .Label label =>
      some (c, [.render (.label (label.text.as_string c))], k + 1)
  | .HorizontalLayout widgets => do
      let (c, events, k') ← HandlerContext.update_widgets c widgets surface k
      pure (c, .render .openHorizontal :: events ++ [.render .closeHorizontal], k')
  | .Slider slider =>
      let value := slider.value.as_u32 c
      let response := surface k
      let renderEvent : Event :=
        .render (.slider slider.range.start slider.range.«end»
          (slider.text.as_string c) value)
      if response.changed then
        let value := response.sliderValue
        some (slider.on_change.run value c,
          [renderEvent, .dispatch (.u32 slider.on_change value)], k + 1)
      else
        some (c, [renderEvent], k + 1)
  | .Button button =>
      let renderEvent : Event := .render (.button (button.text.as_string c))
      let button_response := surface k
      if button_response.clicked then
        match button.on_click.run c with
        | some c' =>
            some (c', [renderEvent, .dispatch (.click button.on_click)], k + 1)
        | none => none
      else
        some (c, [renderEvent], k + 1)
  | .Image image =>
      some (c, [.render (.image ("file://" ++ image.src.as_string c))], k + 1)
  | .TextEdit text_edit =>
      let value := text_edit.value.as_string c
      let response := surface k
      let renderEvent : Event := .render (.textEdit value)
      if response.changed then
        let value := response.textValue
        some (text_edit.on_change.run value c,
          [renderEvent, .dispatch (.text text_edit.on_change value)], k + 1)
      else
        some (c, [renderEvent], k + 1)

/-- The `for widget in &widgets { self.update_widget(widget, ui) }` loops of
`update_widget` (HorizontalLayout) and `update_container` (CentralPanel). -/
def HandlerContext.update_widgets (c : HandlerContext) (widgets : List Widget)
    (surface : Surface) (k : Nat) :
    Option (HandlerContext × List Event × Nat) :=
  match widgets with
  | [] => some (c, [], k)
  | widget :: rest => do
      let (c, events, k') ← HandlerContext.update_widget c widget surface k
      let (c, events2, k'') ← HandlerContext.update_widgets c rest surface k'
      pure (c, events ++ events2, k'')

end

/-- `HandlerContext::update_container`: opens the `CentralPanel` region and
renders its widgets in order. -/
def HandlerContext.update_container (c : HandlerContext) (container : Container)
    (surface : Surface) (k : Nat) :
    Option (HandlerContext × List Event × Nat) :=
  match container with
  | .CentralPanel panel => do
      let (c, events, k') ← HandlerContext.update_widgets c panel.widgets surface k
      pure (c, .render .openCentralPanel :: events ++ [.render .closeCentralPanel], k')

/-- The `for container in &self.config.containers` loop of
`Engine::update`. -/
def HandlerContext.update_containers (c : HandlerContext)
    (containers : List Container) (surface : Surface) (k : Nat) :
    Option (HandlerContext × List Event × Nat) :=
  match containers with
  | [] => some (c, [], k)
  | container :: rest => do
      let (c, events, k') ← HandlerContext.update_container c container surface k
      let (c, events2, k'') ← HandlerContext.update_containers c rest surface k'
      pure (c, events ++ events2, k'')

/-- `impl eframe::App for Engine`: `fn update` walks every container once
per frame. -/
def Engine.update (e : Engine) (surface : Surface) :
    Option (Engine × List Event) :=
  match HandlerContext.update_containers e.context e.config.containers surface 0 with
  | some (context, events, _) => some ({ e with context := context }, events)
  | none => none

/-- A quiet frame: the surface reports no interaction for any widget. -/
def NoInteraction (surface : Surface) : Prop :=
  ∀ n, (surface n).changed = false ∧ (surface n).clicked = false

/-! ## The wire format

`main` loads the configuration with `serde_yaml::from_reader`; the wire
contract is fixed by the `#[derive(Serialize, Deserialize)]` attributes on
the source types.  `Value` models a parsed YAML document. -/

/-- A parsed YAML/JSON document. -/
inductive Value where
  | null
  | nat (n : Nat)
  | str (s : String)
  | seq (vs : List Value)
  | map (entries : List (String × Value))

/-- Field access in a mapping (first occurrence of the key). -/
def Value.lookup (v : Value) (key : String) : Option Value :=
  match v with
  | .map entries => entries.lookup key
  | _ => none

/-- Decode a `u32` (serde rejects numbers outside the `u32` range). -/
def decodeU32 (v : Value) : Option Nat :=
  match v with
  | .nat n => if n < 2 ^ 32 then some n else none
  | _ => none

/-- Decode a `String` field. -/
def decodeString (v : Value) : Option String :=
  match v with
  | .str s => some s
  | _ => none

/-- Decode an `Option<String>` field: a missing or `null` field is `None`. -/
def decodeOptionString (v : Option Value) : Option (Option String) :=
  match v with
  | none => some none
  | some .null => some none
  | some (.str s) => some (some s)
  | some _ => none

/-- Serialize an `Option<String>` field (`None` becomes `null`). -/
def serializeOptionString (s : Option String) : Value :=
  match s with
  | none => .null
  | some s => .str s

/-- serde serializes `RangeInclusive<u32>` as a struct with fields
`start` and `end`. -/
def RangeInclusive.serialize (r : RangeInclusive) : Value :=
  .map [("start", .nat r.start), ("end", .nat r.«end»)]

/-- Deserialize a `RangeInclusive<u32>` from its `{start, end}` struct
form. -/
def RangeInclusive.deserialize (v : Value) : Option RangeInclusive := do
  let startVal ← decodeU32 (← v.lookup "start")
  let endVal ← decodeU32 (← v.lookup "end")
  pure { start := startVal, «end» := endVal }

/-- `HandlerU32` on the wire: unit variant as a snake_case string. -/
def HandlerU32.serialize (h : HandlerU32) : Value :=
  match h with
  | .SetAge => .str "set_age"

/-- Deserialize a `HandlerU32`. -/
def HandlerU32.deserialize (v : Value) : Option HandlerU32 :=
  match v with
  | .str s => if s = "set_age" then some .SetAge else none
  | _ => none

/-- `HandlerString` on the wire. -/
def HandlerString.serialize (h : HandlerString) : Value :=
  match h with
  | .SetName => .str "set_name"

/-- Deserialize a `HandlerString`. -/
def HandlerString.deserialize (v : Value) : Option HandlerString :=
  match v with
  | .str s => if s = "set_name" then some .SetName else none
  | _ => none

/-- `Handler` on the wire. -/
def Handler.serialize (h : Handler) : Value :=
  match h with
  | .IncrementAge => .str "increment_age"

/-- Deserialize a `Handler`. -/
def Handler.deserialize (v : Value) : Option Handler :=
  match v with
  | .str s => if s = "increment_age" then some .IncrementAge else none
  | _ => none

/-- `AsU32` on the wire: `GetAge` as the string `"get_age"`, and the
`#[serde(untagged)]` literal as a bare number. -/
def AsU32.serialize (e : AsU32) : Value :=
  match e with
  | .GetAge => .str "get_age"
  | .Literal v => .nat v

/-- Deserialize an `AsU32`: serde tries the tagged unit variants first and
falls back to the untagged `Literal(u32)`. -/
def AsU32.deserialize (v : Value) : Option AsU32 :=
  match v with
  | .str s => if s = "get_age" then some .GetAge else none
  | .nat n => if n < 2 ^ 32 then some (.Literal n) else none
  | _ => none

/-- `AsString` on the wire: unit variants as `"get_name"` / `"hello"`, and
the untagged literal as a bare string. -/
def AsString.serialize (e : AsString) : Value :=
  match e with
  | .GetName => .str "get_name"
  | .Hello => .str "hello"
  | .Literal v => .str v

/-- Deserialize an `AsString`: serde first matches the unit-variant names,
so the strings `"get_name"` and `"hello"` are never untagged literals. -/
def AsString.deserialize (v : Value) : Option AsString :=
  match v with
  | .str s =>
      if s = "get_name" then some .GetName
      else if s = "hello" then some .Hello
      else some (.Literal s)
  | _ => none

mutual

/-- `Widget` on the wire: internally tagged (`tag = "type"`), variant names
in snake_case, the variant's struct fields flattened next to the tag. -/
def Widget.serialize (w : Widget) : Value :=
  match w with
  | .Label label =>
      .map [("type", .str "label"), ("text", label.text.serialize),
        ("id", serializeOptionString label.id)]
  | .HorizontalLayout widgets =>
      .map [("type", .str "horizontal_layout"),
        ("widgets", .seq (Widget.serializeList widgets))]
  | .TextEdit text_edit =>
      .map [("type", .str "text_edit"), ("value", text_edit.value.serialize),
        ("on_change", text_edit.on_change.serialize),
        ("label_id", serializeOptionString text_edit.label_id)]
  | .Slider slider =>
      .map [("type", .str "slider"), ("range", slider.range.serialize),
        ("text", slider.text.serialize), ("value", slider.value.serialize),
        ("on_change", slider.on_change.serialize)]
  | .Button button =>
      .map [("type", .str "button"), ("text", button.text.serialize),
        ("on_click", button.on_click.serialize)]
  | .Image image =>
      .map [("type", .str "image"), ("src", image.src.serialize)]

/-- Serialize a `Vec<Widget>`. -/
def Widget.serializeList (ws : List Widget) : List Value :=
  match ws with
  | [] => []
  | w :: rest => Widget.serialize w :: Widget.serializeList rest

end

mutual

/-- Deserialize a `Widget` from its internally tagged form: read the
`"type"` tag, then the variant's fields from the same mapping (unknown
fields are ignored, serde's default). -/
def Widget.deserialize (v : Value) : Option Widget :=
  match v.lookup "type" with
  | some (.str "label") => do
      let text ← AsString.deserialize (← v.lookup "text")
      let id ← decodeOptionString (v.lookup "id")
      pure (.Label { text := text, id := id })
  | some (.str "horizontal_layout") =>
      match v with
      | .map entries => Widget.deserializeWidgetsField entries
      | _ => none
  | some (.str "text_edit") => do
      let value ← AsString.deserialize (← v.lookup "value")
      let on_change ← HandlerString.deserialize (← v.lookup "on_change")
      let label_id ← decodeOptionString (v.lookup "label_id")
      pure (.TextEdit { value := value, on_change := on_change, label_id := label_id })
  | some (.str "slider") => do
      let range ← RangeInclusive.deserialize (← v.lookup "range")
      let text ← AsString.deserialize (← v.lookup "text")
      let value ← AsU32.deserialize (← v.lookup "value")
      let on_change ← HandlerU32.deserialize (← v.lookup "on_change")
      pure (.Slider { range := range, text := text, value := value, on_change := on_change })
  | some (.str "button") => do
      let text ← AsString.deserialize (← v.lookup "text")
      let on_click ← Handler.deserialize (← v.lookup "on_click")
      pure (.Button { text := text, on_click := on_click })
  | some (.str "image") => do
      let src ← AsString.deserialize (← v.lookup "src")
      pure (.Image { src := src })
  | _ => none

/-- Find the `"widgets"` field (first occurrence, as `lookup` would) and
deserialize it as a widget sequence; written as one recursion so that the
nested recursion into the child widgets stays structural. -/
def Widget.deserializeWidgetsField (entries : List (String × Value)) :
    Option Widget :=
  match entries with
  | [] => none
  | (key, val) :: rest =>
      if key = "widgets" then
        match val with
        | .seq vs => do
            let widgets ← Widget.deserializeListOpt vs
            pure (.HorizontalLayout widgets)
        | _ => none
      else Widget.deserializeWidgetsField rest

/-- Deserialize a sequence of widgets. -/
def Widget.deserializeListOpt (vs : List Value) : Option (List Widget) :=
  match vs with
  | [] => some []
  | v :: rest => do
      let w ← Widget.deserialize v
      let ws ← Widget.deserializeListOpt rest
      pure (w :: ws)

end

/-- `Container` on the wire: internally tagged, tag value
`"central_panel"`. -/
def Container.serialize (c : Container) : Value :=
  match c with
  | .CentralPanel panel =>
      .map [("type", .str "central_panel"),
        ("widgets", .seq (Widget.serializeList panel.widgets))]

/-- Deserialize a `Container`. -/
def Container.deserialize (v : Value) : Option Container :=
  match v.lookup "type" with
  | some (.str "central_panel") =>
      match v.lookup "widgets" with
      | some (.seq vs) => do
          let widgets ← Widget.deserializeListOpt vs
          pure (.CentralPanel { widgets := widgets })
      | _ => none
  | _ => none

/-- Serialize a `Vec<Container>`. -/
def Container.serializeList (cs : List Container) : List Value :=
  match cs with
  | [] => []
  | c :: rest => Container.serialize c :: Container.serializeList rest

/-- Deserialize a `Vec<Container>`. -/
def Container.deserializeList (vs : List Value) : Option (List Container) :=
  match vs with
  | [] => some []
  | v :: rest => do
      let c ← Container.deserialize v
      let cs ← Container.deserializeList rest
      pure (c :: cs)

/-- `Config` on the wire. -/
def Config.serialize (config : Config) : Value :=
  .map [("name", .str config.name),
    ("containers", .seq (Container.serializeList config.containers))]

/-- Deserialize a `Config` (the `serde_yaml::from_reader` step of `main`,
after YAML parsing). -/
def Config.deserialize (v : Value) : Option Config := do
  let name ← decodeString (← v.lookup "name")
  match v.lookup "containers" with
  | some (.seq vs) => do
      let containers ← Container.deserializeList vs
      pure { name := name, containers := containers }
  | _ => none

/-! ## Specification-side helpers

Pure descriptions of what a frame should look like, used to state the
claims; the interpreter above is the object being verified against them. -/

/-- The kind of a render request, forgetting the evaluated data: used to
state that the requests of a frame follow the declared tree. -/
inductive RenderKind where
  | label
  | openHorizontal
  | closeHorizontal
  | slider
  | button
  | image
  | textEdit
  | openCentralPanel
  | closeCentralPanel
deriving Repr, DecidableEq

/-- Forget a render request's data, keeping its kind. -/
def RenderOp.kind (op : RenderOp) : RenderKind :=
  match op with
  | .label _ => .label
  | .openHorizontal => .openHorizontal
  | .closeHorizontal => .closeHorizontal
  | .slider _ _ _ _ => .slider
  | .button _ => .button
  | .image _ => .image
  | .textEdit _ => .textEdit
  | .openCentralPanel => .openCentralPanel
  | .closeCentralPanel => .closeCentralPanel

mutual

/-- The render requests a widget subtree should produce when every value is
resolved against the fixed state `c`: the left-to-right, depth-first
traversal of the declared tree. -/
def Widget.renderSpec (w : Widget) (c : HandlerContext) : List RenderOp :=
  match w with
  | .Label label => [.label (label.text.as_string c)]
  | .HorizontalLayout widgets =>
      .openHorizontal :: Widget.renderSpecList widgets c ++ [.closeHorizontal]
  | .TextEdit text_edit => [.textEdit (text_edit.value.as_string c)]
  | .Slider slider =>
      [.slider slider.range.start slider.range.«end»
        (slider.text.as_string c) (slider.value.as_u32 c)]
  | .Button button => [.button (button.text.as_string c)]
  | .Image image => [.image ("file://" ++ image.src.as_string c)]

/-- `Widget.renderSpec` over a sequence of widgets, in declared order. -/
def Widget.renderSpecList (ws : List Widget) (c : HandlerContext) :
    List RenderOp :=
  match ws with
  | [] => []
  | w :: rest => Widget.renderSpec w c ++ Widget.renderSpecList rest c

end

/-- `Widget.renderSpec` for a container. -/
def Container.renderSpec (container : Container) (c : HandlerContext) :
    List RenderOp :=
  match container with
  | .CentralPanel panel =>
      .openCentralPanel :: Widget.renderSpecList panel.widgets c
        ++ [.closeCentralPanel]

/-- `Container.renderSpec` over a sequence of containers, in order. -/
def Container.renderSpecList (containers : List Container)
    (c : HandlerContext) : List RenderOp :=
  match containers with
  | [] => []
  | container :: rest =>
      Container.renderSpec container c ++ Container.renderSpecList rest c

/-- The full frame's expected render requests against a fixed state. -/
def Config.renderSpec (config : Config) (c : HandlerContext) :
    List RenderOp :=
  Container.renderSpecList config.containers c

mutual

/-- The kinds of the render requests of the left-to-right, depth-first
traversal of the declared widget tree (state-independent). -/
def Widget.shapeSpec (w : Widget) : List RenderKind :=
  match w with
  | .Label _ => [.label]
  | .HorizontalLayout widgets =>
      .openHorizontal :: Widget.shapeSpecList widgets ++ [.closeHorizontal]
  | .TextEdit _ => [.textEdit]
  | .Slider _ => [.slider]
  | .Button _ => [.button]
  | .Image _ => [.image]

/-- `Widget.shapeSpec` over a sequence of widgets, in declared order. -/
def Widget.shapeSpecList (ws : List Widget) : List RenderKind :=
  match ws with
  | [] => []
  | w :: rest => Widget.shapeSpec w ++ Widget.shapeSpecList rest

end

/-- `Widget.shapeSpec` for a container. -/
def Container.shapeSpec (container : Container) : List RenderKind :=
  match container with
  | .CentralPanel panel =>
      .openCentralPanel :: Widget.shapeSpecList panel.widgets
        ++ [.closeCentralPanel]

/-- `Container.shapeSpec` over a sequence of containers, in order. -/
def Container.shapeSpecList (containers : List Container) : List RenderKind :=
  match containers with
  | [] => []
  | container :: rest =>
      Container.shapeSpec container ++ Container.shapeSpecList rest

/-- The expected shape of a full frame. -/
def Config.shapeSpec (config : Config) : List RenderKind :=
  Container.shapeSpecList config.containers

/-! ### Round-trip side conditions

The serialized form of `AsString.Literal "get_name"` or
`AsString.Literal "hello"` is re-read as the like-named unit variant, so the
wire round-trip is only the identity away from those strings; the numeric
bounds record the `u32` typing of the Rust values. -/

/-- A textual expression whose wire form re-reads as itself. -/
def AsString.roundtripSafe (e : AsString) : Bool :=
  match e with
  | .Literal s => !(s == "get_name") && !(s == "hello")
  | _ => true

/-- A numeric expression within the `u32` range (every Rust value is). -/
def AsU32.roundtripSafe (e : AsU32) : Bool :=
  match e with
  | .Literal v => decide (v < 2 ^ 32)
  | .GetAge => true

/-- A range within the `u32` range (every Rust value is). -/
def RangeInclusive.wf (r : RangeInclusive) : Bool :=
  decide (r.start < 2 ^ 32) && decide (r.«end» < 2 ^ 32)

mutual

/-- Every expression of the subtree survives the wire round-trip. -/
def Widget.roundtripSafe (w : Widget) : Bool :=
  match w with
  | .Label label => label.text.roundtripSafe
  | .HorizontalLayout widgets => Widget.roundtripSafeList widgets
  | .TextEdit text_edit => text_edit.value.roundtripSafe
  | .Slider slider =>
      slider.range.wf && slider.text.roundtripSafe && slider.value.roundtripSafe
  | .Button button => button.text.roundtripSafe
  | .Image image => image.src.roundtripSafe

/-- `Widget.roundtripSafe` over a sequence of widgets. -/
def Widget.roundtripSafeList (ws : List Widget) : Bool :=
  match ws with
  | [] => true
  | w :: rest => Widget.roundtripSafe w && Widget.roundtripSafeList rest

end

/-- `Widget.roundtripSafe` for a container. -/
def Container.roundtripSafe (container : Container) : Bool :=
  match container with
  | .CentralPanel panel => Widget.roundtripSafeList panel.widgets

/-- `Container.roundtripSafe` over a sequence of containers. -/
def Container.roundtripSafeList (containers : List Container) : Bool :=
  match containers with
  | [] => true
  | container :: rest =>
      Container.roundtripSafe container && Container.roundtripSafeList rest

/-- Every expression of the configuration survives the wire round-trip. -/
def Config.roundtripSafe (config : Config) : Bool :=
  Container.roundtripSafeList config.containers

/-! ## Concrete scenario data -/

/-- The response of a widget nobody touched this frame. -/
def noResponse : Response :=
  { changed := false, clicked := false, sliderValue := 0, textValue := "" }

/-- A frame with no interaction at all. -/
def noSurface : Surface := fun _ => noResponse

/-- The end-to-end scenario's slider: range 0–100, value bound to `GetAge`,
`on_change` bound to `SetAge`. -/
def demoSlider : Slider :=
  { range := { start := 0, «end» := 100 }, text := .Literal "Age",
    value := .GetAge, on_change := .SetAge }

/-- The end-to-end scenario's button: `on_click` bound to `IncrementAge`. -/
def demoButton : Button :=
  { text := .Literal "Increment age", on_click := .IncrementAge }

/-- The end-to-end scenario's configuration: one central panel holding the
slider and the button. -/
def demoConfig : Config :=
  { name := "demo",
    containers := [.CentralPanel { widgets := [.Slider demoSlider, .Button demoButton] }] }

/-- The scenario's engine over the default state `{name: "Arthur", age: 42}`. -/
def demoEngine : Engine :=
  { config := demoConfig, context := HandlerContext.default }

/-- Frame 1's surface: the slider (the frame's first `ui.add`) reports
"changed to 50"; nothing else interacts. -/
def sliderChangedTo50 : Surface := fun n =>
  if n = 0 then { noResponse with changed := true, sliderValue := 50 }
  else noResponse

/-- Frame 3's surface: the button (the frame's second `ui.add`) reports a
completed click; nothing else interacts. -/
def buttonClicked : Surface := fun n =>
  if n = 1 then { noResponse with clicked := true } else noResponse

/-- The scenario's engine after frame 1: `age` set to 50. -/
def demoEngineAfter1 : Engine :=
  { config := demoConfig, context := { name := "Arthur", age := 50 } }

/-- A configuration document written in the spec's published vocabulary:
externally tagged containers with the `mainPanel` tag. -/
def specVocabularyDoc : Value :=
  .map [("name", .str "demo"),
    ("containers", .seq [.map [("mainPanel", .map [("widgets", .seq [])])]])]

/-- A configuration document in the wire vocabulary the source actually
derives: internally tagged (`type` field), snake_case names.  It exercises
every container, widget, reader and command variant, both `Option` field
forms (missing and `null`), and both untagged literal forms. -/
def wireDoc : Value :=
  .map [("name", .str "demo"),
    ("containers", .seq [
      .map [("type", .str "central_panel"), ("widgets", .seq [
        .map [("type", .str "label"), ("text", .str "hello"),
          ("id", .str "greeting")],
        .map [("type", .str "horizontal_layout"), ("widgets", .seq [
          .map [("type", .str "label"), ("text", .str "get_name")],
          .map [("type", .str "image"), ("src", .str "portrait.png")]])],
        .map [("type", .str "text_edit"), ("value", .str "get_name"),
          ("on_change", .str "set_name"), ("label_id", .null)],
        .map [("type", .str "slider"),
          ("range", .map [("start", .nat 0), ("end", .nat 100)]),
          ("text", .str "Age"), ("value", .str "get_age"),
          ("on_change", .str "set_age")],
        .map [("type", .str "slider"),
          ("range", .map [("start", .nat 0), ("end", .nat 10)]),
          ("text", .str "Fixed"), ("value", .nat 7),
          ("on_change", .str "set_age")],
        .map [("type", .str "button"), ("text", .str "Increment"),
          ("on_click", .str "increment_age")]])]])]

/-- The widget tree `wireDoc` denotes. -/
def wireConfig : Config :=
  { name := "demo",
    containers := [.CentralPanel { widgets := [
      .Label { text := .Hello, id := some "greeting" },
      .HorizontalLayout [
        .Label { text := .GetName, id := none },
        .Image { src := .Literal "portrait.png" }],
      .TextEdit { value := .GetName, on_change := .SetName, label_id := none },
      .Slider { range := { start := 0, «end» := 100 },
                text := .Literal "Age",
                value := .GetAge, on_change := .SetAge },
      .Slider { range := { start := 0, «end» := 10 },
                text := .Literal "Fixed",
                value := .Literal 7, on_change := .SetAge },
      .Button { text := .Literal "Increment", on_click := .IncrementAge }] }] }

/-- A configuration whose label text is the string literal `"hello"`: its
wire form is the bare string `hello`, which re-reads as the named
`Hello` expression. -/
def literalHelloConfig : Config :=
  { name := "demo",
    containers := [.CentralPanel { widgets := [
      .Label { text := .Literal "hello", id := none }] }] }

/-- A surface that reports every signal at once for every widget: the
toolkit never does this for a real widget, but the interpreter's per-widget
guarantees must hold for any response. -/
def touchAll : Surface := fun _ =>
  { changed := true, clicked := true, sliderValue := 7, textValue := "Zaphod" }

/-! ## Lemmas -/

theorem rendersOf_append (a b : List Event) :
    rendersOf (a ++ b) = rendersOf a ++ rendersOf b := by
  simp [rendersOf]

theorem rendersOf_map_render (ops : List RenderOp) :
    rendersOf (ops.map .render) = ops := by
  induction ops with
  | nil => rfl
  | cons op rest ih => simp [rendersOf] at ih ⊢; exact ih

mutual

theorem update_widget_noInteraction : ∀ (w : Widget) (surface : Surface),
    NoInteraction surface → ∀ (c : HandlerContext) (k : Nat),
    ∃ k', HandlerContext.update_widget c w surface k =
      some (c, (w.renderSpec c).map Event.render, k')
  | .Label label, surface, _, c, k =>
      ⟨k + 1, by simp [HandlerContext.update_widget, Widget.renderSpec]⟩
  | .HorizontalLayout widgets, surface, h, c, k => by
      obtain ⟨k', hk⟩ := update_widgets_noInteraction widgets surface h c k
      exact ⟨k', by simp [HandlerContext.update_widget, hk, Widget.renderSpec]⟩
  | .Slider slider, surface, h, c, k =>
      ⟨k + 1, by simp [HandlerContext.update_widget, (h k).1, Widget.renderSpec]⟩
  | .Button button, surface, h, c, k =>
      ⟨k + 1, by simp [HandlerContext.update_widget, (h k).2, Widget.renderSpec]⟩
  | .Image image, surface, _, c, k =>
      ⟨k + 1, by simp [HandlerContext.update_widget, Widget.renderSpec]⟩
  | .TextEdit text_edit, surface, h, c, k =>
      ⟨k + 1, by simp [HandlerContext.update_widget, (h k).1, Widget.renderSpec]⟩

theorem update_widgets_noInteraction : ∀ (ws : List Widget) (surface : Surface),
    NoInteraction surface → ∀ (c : HandlerContext) (k : Nat),
    ∃ k', HandlerContext.update_widgets c ws surface k =
      some (c, (Widget.renderSpecList ws c).map Event.render, k')
  | [], surface, _, c, k =>
      ⟨k, by simp [HandlerContext.update_widgets, Widget.renderSpecList]⟩
  | w :: rest, surface, h, c, k => by
      obtain ⟨k1, h1⟩ := update_widget_noInteraction w surface h c k
      obtain ⟨k2, h2⟩ := update_widgets_noInteraction rest surface h c k1
      exact ⟨k2, by simp [HandlerContext.update_widgets, h1, h2, Widget.renderSpecList]⟩

end

theorem update_container_noInteraction (surface : Surface)
    (h : NoInteraction surface) :
    ∀ (container : Container) (c : HandlerContext) (k : Nat),
    ∃ k', HandlerContext.update_container c container surface k =
      some (c, (container.renderSpec c).map Event.render, k')
  | .CentralPanel panel, c, k => by
      obtain ⟨k', hk⟩ := update_widgets_noInteraction panel.widgets surface h c k
      exact ⟨k', by simp [HandlerContext.update_container, hk, Container.renderSpec]⟩

theorem update_containers_noInteraction (surface : Surface)
    (h : NoInteraction surface) :
    ∀ (containers : List Container) (c : HandlerContext) (k : Nat),
    ∃ k', HandlerContext.update_containers c containers surface k =
      some (c, (Container.renderSpecList containers c).map Event.render, k') := by
  intro containers
  induction containers with
  | nil =>
      intro c k
      exact ⟨k, by simp [HandlerContext.update_containers, Container.renderSpecList]⟩
  | cons container rest ih =>
      intro c k
      obtain ⟨k1, h1⟩ := update_container_noInteraction surface h container c k
      obtain ⟨k2, h2⟩ := ih c k1
      exact ⟨k2, by simp [HandlerContext.update_containers, h1, h2, Container.renderSpecList]⟩

theorem Engine.update_noInteraction (e : Engine) (surface : Surface)
    (h : NoInteraction surface) :
    Engine.update e surface =
      some (e, (e.config.renderSpec e.context).map Event.render) := by
  obtain ⟨k', hk⟩ :=
    update_containers_noInteraction surface h e.config.containers e.context 0
  simp [Engine.update, hk, Config.renderSpec]

mutual

theorem update_widget_shape : ∀ (w : Widget) (c : HandlerContext)
    (surface : Surface) (k : Nat) (r : HandlerContext × List Event × Nat),
    HandlerContext.update_widget c w surface k = some r →
    (rendersOf r.2.1).map RenderOp.kind = w.shapeSpec
  | .Label label, c, surface, k, r => by
      simp only [HandlerContext.update_widget]
      rintro ⟨rfl⟩
      simp [rendersOf, Widget.shapeSpec, RenderOp.kind]
  | .HorizontalLayout widgets, c, surface, k, r => by
      simp only [HandlerContext.update_widget, Option.bind_eq_bind,
        Option.bind_eq_some]
      rintro ⟨⟨c', events, k'⟩, hw, ⟨rfl⟩⟩
      have ih := update_widgets_shape widgets c surface k (c', events, k') hw
      simp only [rendersOf, List.filterMap_cons, List.filterMap_append] at ih ⊢
      simp [Widget.shapeSpec, RenderOp.kind, ih]
  | .Slider slider, c, surface, k, r => by
      simp only [HandlerContext.update_widget]
      split
      · rintro ⟨rfl⟩
        simp [rendersOf, Widget.shapeSpec, RenderOp.kind]
      · rintro ⟨rfl⟩
        simp [rendersOf, Widget.shapeSpec, RenderOp.kind]
  | .Button button, c, surface, k, r => by
      simp only [HandlerContext.update_widget]
      split
      · split
        · rintro ⟨rfl⟩
          simp [rendersOf, Widget.shapeSpec, RenderOp.kind]
        · simp
      · rintro ⟨rfl⟩
        simp [rendersOf, Widget.shapeSpec, RenderOp.kind]
  | .Image image, c, surface, k, r => by
      simp only [HandlerContext.update_widget]
      rintro ⟨rfl⟩
      simp [rendersOf, Widget.shapeSpec, RenderOp.kind]
  | .TextEdit text_edit, c, surface, k, r => by
      simp only [HandlerContext.update_widget]
      split
      · rintro ⟨rfl⟩
        simp [rendersOf, Widget.shapeSpec, RenderOp.kind]
      · rintro ⟨rfl⟩
        simp [rendersOf, Widget.shapeSpec, RenderOp.kind]

theorem update_widgets_shape : ∀ (ws : List Widget) (c : HandlerContext)
    (surface : Surface) (k : Nat) (r : HandlerContext × List Event × Nat),
    HandlerContext.update_widgets c ws surface k = some r →
    (rendersOf r.2.1).map RenderOp.kind = Widget.shapeSpecList ws
  | [], c, surface, k, r => by
      simp only [HandlerContext.update_widgets]
      rintro ⟨rfl⟩
      simp [rendersOf, Widget.shapeSpecList]
  | w :: rest, c, surface, k, r => by
      simp only [HandlerContext.update_widgets, Option.bind_eq_bind,
        Option.bind_eq_some]
      rintro ⟨⟨c1, ev1, k1⟩, h1, ⟨c2, ev2, k2⟩, h2, ⟨rfl⟩⟩
      have g1 := update_widget_shape w c surface k (c1, ev1, k1) h1
      have g2 := update_widgets_shape rest c1 surface k1 (c2, ev2, k2) h2
      simp only [rendersOf, List.filterMap_append] at g1 g2 ⊢
      simp [Widget.shapeSpecList, g1, g2]

end

theorem update_container_shape : ∀ (container : Container) (c : HandlerContext)
    (surface : Surface) (k : Nat) (r : HandlerContext × List Event × Nat),
    HandlerContext.update_container c container surface k = some r →
    (rendersOf r.2.1).map RenderOp.kind = container.shapeSpec
  | .CentralPanel panel, c, surface, k, r => by
      simp only [HandlerContext.update_container, Option.bind_eq_bind,
        Option.bind_eq_some]
      rintro ⟨⟨c', events, k'⟩, hw, ⟨rfl⟩⟩
      have ih := update_widgets_shape panel.widgets c surface k (c', events, k') hw
      simp only [rendersOf, List.filterMap_cons, List.filterMap_append] at ih ⊢
      simp [Container.shapeSpec, RenderOp.kind, ih]

theorem update_containers_shape : ∀ (containers : List Container)
    (c : HandlerContext) (surface : Surface) (k : Nat)
    (r : HandlerContext × List Event × Nat),
    HandlerContext.update_containers c containers surface k = some r →
    (rendersOf r.2.1).map RenderOp.kind = Container.shapeSpecList containers := by
  intro containers
  induction containers with
  | nil =>
      intro c surface k r
      simp only [HandlerContext.update_containers]
      rintro ⟨rfl⟩
      simp [rendersOf, Container.shapeSpecList]
  | cons container rest ih =>
      intro c surface k r
      simp only [HandlerContext.update_containers, Option.bind_eq_bind,
        Option.bind_eq_some]
      rintro ⟨⟨c1, ev1, k1⟩, h1, ⟨c2, ev2, k2⟩, h2, ⟨rfl⟩⟩
      have g1 := update_container_shape container c surface k (c1, ev1, k1) h1
      have g2 := ih c1 surface k1 (c2, ev2, k2) h2
      simp only [rendersOf, List.filterMap_append] at g1 g2 ⊢
      simp [Container.shapeSpecList, g1, g2]

theorem Engine.update_shape (e : Engine) (surface : Surface) (e' : Engine)
    (events : List Event) (h : Engine.update e surface = some (e', events)) :
    (rendersOf events).map RenderOp.kind = e.config.shapeSpec := by
  rw [Engine.update] at h
  split at h
  · next context events0 k heq =>
      simp only [Option.some.injEq, Prod.mk.injEq] at h
      obtain ⟨-, rfl⟩ := h
      exact update_containers_shape e.config.containers e.context surface 0
        (context, events0, k) heq
  · exact absurd h (by simp)

theorem handlerU32_roundtrip (h : HandlerU32) :
    HandlerU32.deserialize h.serialize = some h := by
  cases h; rfl

theorem handlerString_roundtrip (h : HandlerString) :
    HandlerString.deserialize h.serialize = some h := by
  cases h; rfl

theorem handler_roundtrip (h : Handler) :
    Handler.deserialize h.serialize = some h := by
  cases h; rfl

theorem asU32_roundtrip (e : AsU32) (h : e.roundtripSafe = true) :
    AsU32.deserialize e.serialize = some e := by
  cases e with
  | GetAge => rfl
  | Literal v =>
      simp only [AsU32.roundtripSafe, decide_eq_true_eq] at h
      have h' : v < 4294967296 := by omega
      simp [AsU32.serialize, AsU32.deserialize, h']

theorem asString_roundtrip (e : AsString) (h : e.roundtripSafe = true) :
    AsString.deserialize e.serialize = some e := by
  cases e with
  | GetName => rfl
  | Hello => rfl
  | Literal s =>
      simp only [AsString.roundtripSafe, Bool.and_eq_true, Bool.not_eq_true',
        beq_eq_false_iff_ne, ne_eq] at h
      simp [AsString.serialize, AsString.deserialize, h.1, h.2]

theorem rangeInclusive_roundtrip (r : RangeInclusive)
    (h : r.wf = true) : RangeInclusive.deserialize r.serialize = some r := by
  simp only [RangeInclusive.wf, Bool.and_eq_true, decide_eq_true_eq] at h
  have h1 : r.start < 4294967296 := by omega
  have h2 : r.«end» < 4294967296 := by omega
  simp [RangeInclusive.serialize, RangeInclusive.deserialize, Value.lookup,
    List.lookup, decodeU32, h1, h2]

theorem decodeOptionString_serialize (s : Option String) :
    decodeOptionString (some (serializeOptionString s)) = some s := by
  cases s <;> rfl

mutual

theorem widget_roundtrip : ∀ (w : Widget),
    Widget.roundtripSafe w = true →
    Widget.deserialize (Widget.serialize w) = some w
  | .Label label => fun h => by
      simp only [Widget.roundtripSafe] at h
      simp [Widget.serialize, Widget.deserialize, Value.lookup, List.lookup,
        asString_roundtrip label.text h, decodeOptionString_serialize]
  | .HorizontalLayout widgets => fun h => by
      simp only [Widget.roundtripSafe] at h
      have ih := widgetList_roundtrip widgets h
      simp [Widget.serialize, Widget.deserialize, Value.lookup, List.lookup,
        Widget.deserializeWidgetsField, ih]
  | .TextEdit text_edit => fun h => by
      simp only [Widget.roundtripSafe] at h
      simp [Widget.serialize, Widget.deserialize, Value.lookup, List.lookup,
        asString_roundtrip text_edit.value h,
        handlerString_roundtrip, decodeOptionString_serialize]
  | .Slider slider => fun h => by
      simp only [Widget.roundtripSafe, Bool.and_eq_true] at h
      simp [Widget.serialize, Widget.deserialize, Value.lookup, List.lookup,
        rangeInclusive_roundtrip slider.range h.1.1,
        asString_roundtrip slider.text h.1.2,
        asU32_roundtrip slider.value h.2,
        handlerU32_roundtrip]
  | .Button button => fun h => by
      simp only [Widget.roundtripSafe] at h
      simp [Widget.serialize, Widget.deserialize, Value.lookup, List.lookup,
        asString_roundtrip button.text h, handler_roundtrip]
  | .Image image => fun h => by
      simp only [Widget.roundtripSafe] at h
      simp [Widget.serialize, Widget.deserialize, Value.lookup, List.lookup,
        asString_roundtrip image.src h]

theorem widgetList_roundtrip : ∀ (ws : List Widget),
    Widget.roundtripSafeList ws = true →
    Widget.deserializeListOpt (Widget.serializeList ws) = some ws
  | [] => fun _ => rfl
  | w :: rest => fun h => by
      simp only [Widget.roundtripSafeList, Bool.and_eq_true] at h
      simp [Widget.serializeList, Widget.deserializeListOpt,
        widget_roundtrip w h.1,
        widgetList_roundtrip rest h.2]

end

theorem container_roundtrip (container : Container)
    (h : Container.roundtripSafe container = true) :
    Container.deserialize (Container.serialize container) = some container := by
  cases container with
  | CentralPanel panel =>
      simp only [Container.roundtripSafe] at h
      simp [Container.serialize, Container.deserialize, Value.lookup, List.lookup,
        widgetList_roundtrip panel.widgets h]

theorem containerList_roundtrip : ∀ (containers : List Container),
    Container.roundtripSafeList containers = true →
    Container.deserializeList (Container.serializeList containers) =
      some containers
  | [] => fun _ => rfl
  | container :: rest => fun h => by
      simp only [Container.roundtripSafeList, Bool.and_eq_true] at h
      simp [Container.serializeList, Container.deserializeList,
        container_roundtrip container h.1,
        containerList_roundtrip rest h.2]

theorem config_roundtrip (config : Config)
    (h : Config.roundtripSafe config = true) :
    Config.deserialize (Config.serialize config) = some config := by
  simp only [Config.roundtripSafe] at h
  simp [Config.serialize, Config.deserialize, Value.lookup, List.lookup,
    decodeString, containerList_roundtrip config.containers h]

/-! ## Claims -/

/-- **C1**: for every frame and every interactive widget (Slider, Button,
TextEdit), the value `update_widget` evaluates and renders for that widget
reflects the state as it was before that widget's command (if it fires this
frame) mutates it: the render request is issued first, computed from the
pre-mutation state `c`, and the post-state is the command applied to that
same pre-mutation state, so mutation effects are visible only from the next
frame onward. -/
theorem C1_read_before_write :
    ∀ (c : HandlerContext) (surface : Surface) (k : Nat),
    (∀ (s : Slider) (r : HandlerContext × List Event × Nat),
      HandlerContext.update_widget c (.Slider s) surface k = some r →
      rendersOf r.2.1 =
          [.slider s.range.start s.range.«end» (s.text.as_string c)
            (s.value.as_u32 c)]
        ∧ r.2.1.head? = some (.render (.slider s.range.start s.range.«end»
            (s.text.as_string c) (s.value.as_u32 c)))
        ∧ r.1 = (if (surface k).changed = true then
            HandlerU32.run s.on_change (surface k).sliderValue c else c))
    ∧ (∀ (b : Button) (r : HandlerContext × List Event × Nat),
      HandlerContext.update_widget c (.Button b) surface k = some r →
      rendersOf r.2.1 = [.button (b.text.as_string c)]
        ∧ r.2.1.head? = some (.render (.button (b.text.as_string c)))
        ∧ ((surface k).clicked = true → Handler.run b.on_click c = some r.1)
        ∧ ((surface k).clicked = false → r.1 = c))
    ∧ (∀ (t : TextEdit) (r : HandlerContext × List Event × Nat),
      HandlerContext.update_widget c (.TextEdit t) surface k = some r →
      rendersOf r.2.1 = [.textEdit (t.value.as_string c)]
        ∧ r.2.1.head? = some (.render (.textEdit (t.value.as_string c)))
        ∧ r.1 = (if (surface k).changed = true then
            HandlerString.run t.on_change (surface k).textValue c else c)) := by
  intro c surface k
  refine ⟨?_, ?_, ?_⟩
  · intro s r
    simp only [HandlerContext.update_widget]
    split
    next hchanged =>
      rintro ⟨rfl⟩
      exact ⟨by simp [rendersOf], rfl, by simp [hchanged]⟩
    next hchanged =>
      rintro ⟨rfl⟩
      refine ⟨by simp [rendersOf], rfl, ?_⟩
      simp only [Bool.not_eq_true] at hchanged
      simp [hchanged]
  · intro b r
    simp only [HandlerContext.update_widget]
    split
    next hclicked =>
      split
      next c' hrun =>
        rintro ⟨rfl⟩
        exact ⟨by simp [rendersOf], rfl, fun _ => hrun,
          fun hfalse => by rw [hfalse] at hclicked; cases hclicked⟩
      next hrun => simp
    next hclicked =>
      rintro ⟨rfl⟩
      exact ⟨by simp [rendersOf], rfl, fun htrue => absurd htrue hclicked,
        fun _ => rfl⟩
  · intro t r
    simp only [HandlerContext.update_widget]
    split
    next hchanged =>
      rintro ⟨rfl⟩
      exact ⟨by simp [rendersOf], rfl, by simp [hchanged]⟩
    next hchanged =>
      rintro ⟨rfl⟩
      refine ⟨by simp [rendersOf], rfl, ?_⟩
      simp only [Bool.not_eq_true] at hchanged
      simp [hchanged]

/-- **C1** witness: the slider of the end-to-end scenario, over the default
state and a surface reporting a change to 7: the render request shows the
pre-mutation value 42, and the post-state is `SetAge 7` applied to the
pre-mutation state. -/
theorem C1_read_before_write_witness :
    rendersOf [Event.render (.slider 0 100 "Age" 42),
        Event.dispatch (.u32 .SetAge 7)] = [.slider 0 100 "Age" 42]
      ∧ ([Event.render (.slider 0 100 "Age" 42),
          Event.dispatch (.u32 .SetAge 7)]).head? =
        some (.render (.slider 0 100 "Age" 42))
      ∧ ({ name := "Arthur", age := 7 } : HandlerContext) =
        (if (touchAll 0).changed = true then
          HandlerU32.run demoSlider.on_change (touchAll 0).sliderValue
            HandlerContext.default
        else HandlerContext.default) :=
  (C1_read_before_write HandlerContext.default touchAll 0).1 demoSlider
    ({ name := "Arthur", age := 7 },
      [Event.render (.slider 0 100 "Age" 42), Event.dispatch (.u32 .SetAge 7)],
      1) rfl

/-- **C2** counterexample: the claim asserts that dispatching
`Handler::IncrementAge` succeeds at every `u32` age including `u32::MAX`,
but `context.age += 1` overflows there (a panic under Rust's overflow
checks, modelled as `none`). -/
theorem C2_counterexample :
    Handler.run .IncrementAge { name := "Arthur", age := u32MAX } = none := by
  decide

/-- **C2** (amended): every command dispatch is total and exact away from
the one overflow point: `SetAge v` always sets `age` to exactly `v`,
`SetName s` always sets `name` to exactly `s`, and `IncrementAge` succeeds
with `age` incremented by exactly one whenever `age < u32::MAX`. -/
theorem C2_amended_command_totality :
    ∀ (c : HandlerContext),
    (∀ v : Nat, v < 2 ^ 32 → HandlerU32.run .SetAge v c = { c with age := v })
    ∧ (∀ s : String, HandlerString.run .SetName s c = { c with name := s })
    ∧ (c.age < u32MAX →
        Handler.run .IncrementAge c = some { c with age := c.age + 1 }) :=
  fun _ => ⟨fun _ _ => rfl, fun _ => rfl, fun h => by simp [Handler.run, h]⟩

/-- **C2** witness: `SetAge 7` and `IncrementAge` on the default state
`{name: "Arthur", age: 42}`. -/
theorem C2_amended_command_totality_witness :
    HandlerU32.run .SetAge 7 HandlerContext.default =
        { HandlerContext.default with age := 7 }
      ∧ Handler.run .IncrementAge HandlerContext.default =
        some { HandlerContext.default with age := 43 } :=
  ⟨(C2_amended_command_totality HandlerContext.default).1 7 (by decide),
   (C2_amended_command_totality HandlerContext.default).2.2 (by decide)⟩

/-- **C3**: if the surface reports no interaction for any widget, a frame
leaves the application state exactly unchanged, and two such frames produce
identical traces (hence identical rendered output). -/
theorem C3_no_interaction_idempotent :
    ∀ (e : Engine) (surface1 surface2 : Surface),
    NoInteraction surface1 → NoInteraction surface2 →
    ∃ events, Engine.update e surface1 = some (e, events)
      ∧ Engine.update e surface2 = some (e, events) :=
  fun e _ _ h1 h2 =>
    ⟨(e.config.renderSpec e.context).map Event.render,
      Engine.update_noInteraction e _ h1, Engine.update_noInteraction e _ h2⟩

/-- **C3** witness: the end-to-end scenario's engine under the quiet
surface, twice. -/
theorem C3_no_interaction_idempotent_witness :
    ∃ events, Engine.update demoEngine noSurface = some (demoEngine, events)
      ∧ Engine.update demoEngine noSurface = some (demoEngine, events) :=
  C3_no_interaction_idempotent demoEngine noSurface noSurface
    (fun _ => ⟨rfl, rfl⟩) (fun _ => ⟨rfl, rfl⟩)

/-- **C4**: end-to-end scenario over one Slider (range 0–100, value
`GetAge`, `on_change` `SetAge`) and one Button (`on_click` `IncrementAge`),
starting from `{name: "Arthur", age: 42}`: after a frame in which the
surface reports the slider changed to 50, `age = 50`; the following quiet
frame renders the slider at 50 and leaves the state unchanged; a further
frame in which the button reports a click yields `age = 51`. -/
theorem C4_end_to_end_scenario :
    ((Engine.update demoEngine sliderChangedTo50).map fun p => p.1) =
        some demoEngineAfter1
      ∧ ((Engine.update demoEngineAfter1 noSurface).map
          fun p => (p.1, rendersOf p.2)) =
        some (demoEngineAfter1,
          [.openCentralPanel, .slider 0 100 "Age" 50,
            .button "Increment age", .closeCentralPanel])
      ∧ ((Engine.update demoEngineAfter1 buttonClicked).map
          fun p => p.1.context.age) = some 51 :=
  ⟨rfl, rfl, rfl⟩

/-- **C5**: for `{name: "Arthur", age: 42}` the `Hello` expression
evaluates to exactly `Hello 'Arthur', age 42`, and in general it is the
interpolation of the state's `name` and decimal `age` in that format. -/
theorem C5_hello_expression :
    AsString.Hello.as_string { name := "Arthur", age := 42 } =
        "Hello 'Arthur', age 42"
      ∧ ∀ c : HandlerContext, AsString.Hello.as_string c =
        "Hello '" ++ c.name ++ "', age " ++ Nat.repr c.age :=
  ⟨rfl, fun _ => rfl⟩

/-- **C6** counterexample: the claim asserts that the deserializer accepts
the spec's externally tagged camelCase vocabulary; but a well-formed
document using the spec's `mainPanel` container shape fails to load (the
derived deserializer is internally tagged and snake_case). -/
theorem C6_counterexample : Config.deserialize specVocabularyDoc = none := rfl

/-- **C6** (amended): the wire vocabulary the deserializer accepts is the
internally tagged (`type` field) snake_case one: container `central_panel`;
widgets `label`, `horizontal_layout`, `text_edit`, `slider`, `button`,
`image`; reads `get_name`, `hello`, `get_age`; commands `set_name`,
`set_age`, `increment_age` — a document exercising every variant loads to
the corresponding widget tree. -/
theorem C6_amended_wire_vocabulary :
    Config.deserialize wireDoc = some wireConfig := rfl

/-- **C7** counterexample: the claim asserts deserialize ∘ serialize is the
identity on every constructed configuration, but a configuration holding
the textual literal `"hello"` serializes to the bare string `hello`, which
re-reads as the named `Hello` expression, not the literal. -/
theorem C7_counterexample :
    Config.deserialize (Config.serialize literalHelloConfig) ≠
      some literalHelloConfig := by
  have heval : Config.deserialize (Config.serialize literalHelloConfig) =
      some { name := "demo", containers := [.CentralPanel { widgets := [
        .Label { text := .Hello, id := none }] }] } := rfl
  rw [heval]
  intro h
  simp [literalHelloConfig] at h

/-- **C7** (amended): serializing and re-loading a configuration yields a
structurally equal widget tree for every supported variant, provided no
textual `Literal` equals a named-read tag (`"get_name"` / `"hello"`); the
numeric side conditions merely record the `u32` typing of the Rust
values. -/
theorem C7_amended_roundtrip :
    ∀ config : Config, Config.roundtripSafe config = true →
    Config.deserialize (Config.serialize config) = some config :=
  fun config h => config_roundtrip config h

/-- **C7** witness: the all-variants configuration `wireConfig` satisfies
the side condition and round-trips to itself. -/
theorem C7_amended_roundtrip_witness :
    Config.roundtripSafe wireConfig = true
      ∧ Config.deserialize (Config.serialize wireConfig) = some wireConfig :=
  ⟨rfl, C7_amended_roundtrip wireConfig rfl⟩

/-- **C8**: each of the Slider, Button, and TextEdit arms of
`update_widget` dispatches its command at most once per call, whatever
combination of signals the surface reports. -/
theorem C8_at_most_one_dispatch :
    ∀ (c : HandlerContext) (surface : Surface) (k : Nat),
    (∀ (s : Slider) (r : HandlerContext × List Event × Nat),
      HandlerContext.update_widget c (.Slider s) surface k = some r →
      dispatchCount r.2.1 ≤ 1)
    ∧ (∀ (b : Button) (r : HandlerContext × List Event × Nat),
      HandlerContext.update_widget c (.Button b) surface k = some r →
      dispatchCount r.2.1 ≤ 1)
    ∧ (∀ (t : TextEdit) (r : HandlerContext × List Event × Nat),
      HandlerContext.update_widget c (.TextEdit t) surface k = some r →
      dispatchCount r.2.1 ≤ 1) := by
  intro c surface k
  refine ⟨?_, ?_, ?_⟩
  · intro s r
    simp only [HandlerContext.update_widget]
    split
    · rintro ⟨rfl⟩; simp [dispatchCount]
    · rintro ⟨rfl⟩; simp [dispatchCount]
  · intro b r
    simp only [HandlerContext.update_widget]
    split
    · split
      · rintro ⟨rfl⟩; simp [dispatchCount]
      · simp
    · rintro ⟨rfl⟩; simp [dispatchCount]
  · intro t r
    simp only [HandlerContext.update_widget]
    split
    · rintro ⟨rfl⟩; simp [dispatchCount]
    · rintro ⟨rfl⟩; simp [dispatchCount]

/-- **C8** witness: the scenario's slider under a surface reporting every
signal at once still dispatches exactly once. -/
theorem C8_at_most_one_dispatch_witness :
    dispatchCount [Event.render (.slider 0 100 "Age" 42),
      Event.dispatch (.u32 .SetAge 7)] ≤ 1 :=
  (C8_at_most_one_dispatch HandlerContext.default touchAll 0).1 demoSlider
    ({ name := "Arthur", age := 7 },
      [Event.render (.slider 0 100 "Age" 42), Event.dispatch (.u32 .SetAge 7)],
      1) rfl

/-- **C9**: the frame driver visits containers in configuration order and
renders widgets exactly in declared sequence order: the render requests of
any successful frame, projected to their kinds, are exactly the
left-to-right depth-first traversal of the declared tree — no reordering,
skipping, or duplication. -/
theorem C9_renders_follow_declared_order :
    ∀ (e : Engine) (surface : Surface) (e' : Engine) (events : List Event),
    Engine.update e surface = some (e', events) →
    (rendersOf events).map RenderOp.kind = e.config.shapeSpec :=
  fun e surface e' events h => Engine.update_shape e surface e' events h

/-- **C9** witness: the scenario's frame 1 (slider dragged to 50) renders
panel-open, slider, button, panel-close, exactly the declared shape. -/
theorem C9_renders_follow_declared_order_witness :
    (rendersOf [Event.render .openCentralPanel,
      Event.render (.slider 0 100 "Age" 42), Event.dispatch (.u32 .SetAge 50),
      Event.render (.button "Increment age"),
      Event.render .closeCentralPanel]).map RenderOp.kind =
      demoConfig.shapeSpec :=
  C9_renders_follow_declared_order demoEngine sliderChangedTo50 demoEngineAfter1
    [Event.render .openCentralPanel, Event.render (.slider 0 100 "Age" 42),
      Event.dispatch (.u32 .SetAge 50), Event.render (.button "Increment age"),
      Event.render .closeCentralPanel] rfl

/-- **C10**: for every Image widget and every state, the resource locator
passed to the surface is the evaluated `src` expression prefixed with
`file://`; e.g. a `src` evaluating to `a.png` yields the request
`file://a.png`. -/
theorem C10_image_uri_file_prefixed :
    (∀ (image : Image) (c : HandlerContext) (surface : Surface) (k : Nat),
      HandlerContext.update_widget c (.Image image) surface k =
        some (c, [.render (.image ("file://" ++ image.src.as_string c))], k + 1))
    ∧ (∀ (c : HandlerContext) (surface : Surface) (k : Nat),
      HandlerContext.update_widget c (.Image { src := .Literal "a.png" })
          surface k =
        some (c, [.render (.image "file://a.png")], k + 1)) :=
  ⟨fun _ _ _ _ => rfl, fun _ _ _ => rfl⟩
